import Mathlib

/-!
Verification of the SD-card SPI driver (src/STM32F4_SD/app/src/sdcard.c).

The SPI link is modelled as a trace of observable events plus a reply
stream: the card's answer to the k-th byte exchange is `replies k`.
Every `SPI1_Transmit` records the transmitted byte (truncated to 8 bits,
mirroring the uint8_t parameter) and yields the next reply.  Delays and
chip-select changes are recorded as events so that timing-sensitive
claims can be stated on the trace.  Unbounded C loops (the ACMD41 poll
halt, busy-waits, the write-command retry) are modelled with explicit
fuel; a `none` result corresponds to a run of the C code that has not
returned within that budget (the permanent `while(1)` halt in SD_Init
is `none` for every fuel, since the loop bound 10 is part of the code).
-/

/-- Observable events on the SPI link. -/
inductive Ev where
  | select : Ev
  | deselect : Ev
  | xfer : Nat → Ev
  | delay : Nat → Ev
  | readBlock : Nat → Ev
  | writeBlock : Nat → Ev
deriving DecidableEq, Repr

/-- State of the SPI link: the trace of events so far, the card's reply
stream (reply to the k-th exchanged byte), and the number of byte
exchanges performed so far. -/
structure SpiState where
  trace : List Ev
  replies : Nat → Nat
  idx : Nat

/-- Model of SPI1_Transmit: send one byte (uint8_t, hence mod 256),
receive the card's reply for this exchange. -/
def SPI1_Transmit (b : Nat) (s : SpiState) : Nat × SpiState :=
  (s.replies s.idx, ⟨s.trace ++ [Ev.xfer (b % 256)], s.replies, s.idx + 1⟩)

/-- Model of SPI1_Select (chip-select assertion, no byte exchange). -/
def SPI1_Select (s : SpiState) : SpiState :=
  ⟨s.trace ++ [Ev.select], s.replies, s.idx⟩

/-- Model of SPI1_Deselect. -/
def SPI1_Deselect (s : SpiState) : SpiState :=
  ⟨s.trace ++ [Ev.deselect], s.replies, s.idx⟩

/-- Model of TIMER_Delay: records the delay, no byte exchange. -/
def TIMER_Delay (ms : Nat) (s : SpiState) : SpiState :=
  ⟨s.trace ++ [Ev.delay ms], s.replies, s.idx⟩

/-- Model of SPI1_ReadBuffer: reads n bytes from the card (n byte
exchanges, contents opaque to the driver logic). -/
def SPI1_ReadBuffer (n : Nat) (s : SpiState) : SpiState :=
  ⟨s.trace ++ [Ev.readBlock n], s.replies, s.idx + n⟩

/-- Model of SPI1_SendBuffer: sends n bytes to the card. -/
def SPI1_SendBuffer (n : Nat) (s : SpiState) : SpiState :=
  ⟨s.trace ++ [Ev.writeBlock n], s.replies, s.idx + n⟩

/-- SD_SendCommand from sdcard.c: transmit `0x40 | cmd`, the four
argument bytes MSB first, the checksum byte (switch on cmd: 0x95 for
GO_IDLE_STATE = 0, 0x87 for SEND_IF_COND = 8, 0xff otherwise), then one
dummy filler byte, then a second filler byte whose reply is returned. -/
def SD_SendCommand (cmd args : Nat) (s : SpiState) : Nat × SpiState :=
  let s1 := (SPI1_Transmit (0x40 ||| cmd) s).2
  let s2 := (SPI1_Transmit (args >>> 24) s1).2
  let s3 := (SPI1_Transmit (args >>> 16) s2).2
  let s4 := (SPI1_Transmit (args >>> 8) s3).2
  let s5 := (SPI1_Transmit args s4).2
  let s6 := (SPI1_Transmit
      (if cmd = 0 then 0x95 else if cmd = 8 then 0x87 else 0xff) s5).2
  let s7 := (SPI1_Transmit 0xff s6).2
  SPI1_Transmit 0xff s7

/-- The eight xfer events produced by one SD_SendCommand call: the
6-byte command frame followed by the two trailing filler bytes. -/
def cmdTrace (cmd args : Nat) : List Ev :=
  [Ev.xfer ((0x40 ||| cmd) % 256), Ev.xfer ((args >>> 24) % 256),
   Ev.xfer ((args >>> 16) % 256), Ev.xfer ((args >>> 8) % 256),
   Ev.xfer (args % 256),
   Ev.xfer (if cmd = 0 then 0x95 else if cmd = 8 then 0x87 else 0xff),
   Ev.xfer 0xff, Ev.xfer 0xff]

theorem SD_SendCommand_spec (cmd args : Nat) (s : SpiState) :
    SD_SendCommand cmd args s =
      (s.replies (s.idx + 7),
       ⟨s.trace ++ cmdTrace cmd args, s.replies, s.idx + 8⟩) := by
  have hmod : (if cmd = 0 then (0x95 : Nat) else if cmd = 8 then 0x87 else 0xff) % 256
      = if cmd = 0 then 0x95 else if cmd = 8 then 0x87 else 0xff := by
    by_cases h0 : cmd = 0 <;> by_cases h8 : cmd = 8 <;> simp [h0, h8]
  simp only [SD_SendCommand, SPI1_Transmit, cmdTrace, List.append_assoc,
    List.cons_append, List.nil_append, hmod, Prod.mk.injEq, SpiState.mk.injEq]

theorem SD_SendCommand_state (cmd args : Nat) (s : SpiState) :
    (SD_SendCommand cmd args s).2 =
      ⟨s.trace ++ cmdTrace cmd args, s.replies, s.idx + 8⟩ := by
  rw [SD_SendCommand_spec]

theorem SD_SendCommand_ret (cmd args : Nat) (s : SpiState) :
    (SD_SendCommand cmd args s).1 = s.replies (s.idx + 7) := by
  rw [SD_SendCommand_spec]

/-- Claim C1: for every command index and 32-bit argument, SD_SendCommand
transmits a 6-byte frame: `0x40 ||| cmd`, the four argument bytes MSB
first, then the checksum byte, which is 0x95 for GO_IDLE_STATE (0),
0x87 for SEND_IF_COND (8) and 0xFF for every other command.  (The two
bytes that follow the frame are the response-probe fillers, cf. C6.) -/
theorem C1_command_frame (cmd args : Nat) (s : SpiState) (hc : cmd < 64) :
    (SD_SendCommand cmd args s).2.trace =
      s.trace ++
        [Ev.xfer (0x40 ||| cmd), Ev.xfer ((args >>> 24) % 256),
         Ev.xfer ((args >>> 16) % 256), Ev.xfer ((args >>> 8) % 256),
         Ev.xfer (args % 256),
         Ev.xfer (if cmd = 0 then 0x95
                  else if cmd = 8 then 0x87 else 0xff)] ++
        [Ev.xfer 0xff, Ev.xfer 0xff] := by
  rw [SD_SendCommand_state]
  have h64 : (0x40 : Nat) ||| cmd < 256 := by
    have : (0x40 : Nat) < 2 ^ 8 := by norm_num
    have hc8 : cmd < 2 ^ 8 := by omega
    simpa using Nat.or_lt_two_pow this hc8
  simp [cmdTrace, Nat.mod_eq_of_lt h64]

theorem C1_command_frame_witness :
    (17 : Nat) < 64 ∧
      (SD_SendCommand 17 0x12345678 ⟨[], fun _ => 0xff, 0⟩).2.trace =
        [] ++
          [Ev.xfer (0x40 ||| 17), Ev.xfer ((0x12345678 >>> 24) % 256),
           Ev.xfer ((0x12345678 >>> 16) % 256),
           Ev.xfer ((0x12345678 >>> 8) % 256), Ev.xfer (0x12345678 % 256),
           Ev.xfer (if (17 : Nat) = 0 then 0x95
                    else if (17 : Nat) = 8 then 0x87 else 0xff)] ++
          [Ev.xfer 0xff, Ev.xfer 0xff] :=
  ⟨by norm_num, C1_command_frame 17 0x12345678 ⟨[], fun _ => 0xff, 0⟩ (by norm_num)⟩

/-- Claim C6: SD_SendCommand transmits exactly two filler bytes (0xFF)
after the checksum byte; the reply to the first filler (exchange index
idx + 6) is discarded and the reply to the second filler (exchange
index idx + 7) is returned as the status.  The returned status is a
function of the reply at index idx + 7 alone, so the first probed byte
never influences it: changing the reply at index idx + 6 arbitrarily
leaves the result unchanged. -/
theorem C6_status_probe (cmd args : Nat) (s : SpiState) :
    (SD_SendCommand cmd args s).2.trace =
      s.trace ++
        [Ev.xfer ((0x40 ||| cmd) % 256), Ev.xfer ((args >>> 24) % 256),
         Ev.xfer ((args >>> 16) % 256), Ev.xfer ((args >>> 8) % 256),
         Ev.xfer (args % 256),
         Ev.xfer (if cmd = 0 then 0x95
                  else if cmd = 8 then 0x87 else 0xff)] ++
        [Ev.xfer 0xff, Ev.xfer 0xff] ∧
    (SD_SendCommand cmd args s).1 = s.replies (s.idx + 7) ∧
    (∀ r : Nat,
      (SD_SendCommand cmd args
        ⟨s.trace, fun k => if k = s.idx + 6 then r else s.replies k,
         s.idx⟩).1 = (SD_SendCommand cmd args s).1) := by
  refine ⟨?_, SD_SendCommand_ret cmd args s, ?_⟩
  · rw [SD_SendCommand_state]
    simp [cmdTrace]
  · intro r
    rw [SD_SendCommand_ret, SD_SendCommand_ret]
    simp

/-- Equality of SPI states sharing the same reply stream. -/
theorem SpiState.mk_eq {t1 t2 : List Ev} {r : Nat → Nat} {i1 i2 : Nat}
    (h1 : t1 = t2) (h2 : i1 = i2) :
    (⟨t1, r, i1⟩ : SpiState) = ⟨t2, r, i2⟩ := by
  subst h1
  subst h2
  rfl

/-- SD_GetResponseR3orR7 from sdcard.c: exchange four filler bytes and
collect the four replies in transmission order. -/
def SD_GetResponseR3orR7 (s : SpiState) : List Nat × SpiState :=
  let p0 := SPI1_Transmit 0xff s
  let p1 := SPI1_Transmit 0xff p0.2
  let p2 := SPI1_Transmit 0xff p1.2
  let p3 := SPI1_Transmit 0xff p2.2
  ([p0.1, p1.1, p2.1, p3.1], p3.2)

theorem SD_GetResponseR3orR7_spec (s : SpiState) :
    SD_GetResponseR3orR7 s =
      ([s.replies s.idx, s.replies (s.idx + 1), s.replies (s.idx + 2),
        s.replies (s.idx + 3)],
       ⟨s.trace ++ List.replicate 4 (Ev.xfer 0xff), s.replies, s.idx + 4⟩) := by
  simp only [SD_GetResponseR3orR7, SPI1_Transmit]
  refine congrArg₂ Prod.mk rfl ?_
  refine SpiState.mk_eq ?_ (by omega)
  simp [List.replicate, List.append_assoc]

/-- The synchronization loop at the top of SD_Init: transmit n filler
bytes (n = 20 in the code). -/
def syncLoop : Nat → SpiState → SpiState
  | 0, s => s
  | n + 1, s => syncLoop n (SPI1_Transmit 0xff s).2

theorem syncLoop_spec (n : Nat) (s : SpiState) :
    syncLoop n s =
      ⟨s.trace ++ List.replicate n (Ev.xfer 0xff), s.replies, s.idx + n⟩ := by
  induction n generalizing s with
  | zero => simp [syncLoop]
  | succ k ih =>
      rw [syncLoop, ih]
      simp only [SPI1_Transmit]
      refine SpiState.mk_eq ?_ (by omega)
      rw [List.append_assoc, List.singleton_append, ← List.replicate_succ]

/-- The part of SD_Init that precedes the ACMD41 polling loop: select
the card, transmit 20 sync bytes, issue GO_IDLE_STATE (CMD0), issue
SEND_IF_COND (CMD8) with the voltage-range/check-pattern argument and
read its 4-byte R7 payload, issue READ_OCR (CMD58) and read its 4-byte
R3 payload.  All response checks in this section only print diagnostics
and never branch the state. -/
def SD_InitPre (replies : Nat → Nat) : SpiState :=
  let s1 := SPI1_Select ⟨[], replies, 0⟩
  let s2 := syncLoop 20 s1
  let s3 := (SD_SendCommand 0 0 s2).2
  let s4 := (SD_SendCommand 8 ((1 <<< 8) ||| 0xaa) s3).2
  let s5 := (SD_GetResponseR3orR7 s4).2
  let s6 := (SD_SendCommand 58 0 s5).2
  (SD_GetResponseR3orR7 s6).2

/-- The trace produced by SD_InitPre. -/
def preTrace : List Ev :=
  Ev.select :: (List.replicate 20 (Ev.xfer 0xff) ++ cmdTrace 0 0 ++
    cmdTrace 8 ((1 <<< 8) ||| 0xaa) ++ List.replicate 4 (Ev.xfer 0xff) ++
    cmdTrace 58 0 ++ List.replicate 4 (Ev.xfer 0xff))

theorem SD_InitPre_spec (replies : Nat → Nat) :
    SD_InitPre replies = ⟨preTrace, replies, 52⟩ := by
  simp only [SD_InitPre, SPI1_Select, syncLoop_spec, SD_SendCommand_state,
    SD_GetResponseR3orR7_spec]
  refine SpiState.mk_eq ?_ (by omega)
  simp [preTrace, List.append_assoc]

/-- One iteration block of the ACMD41 polling loop: the APP_CMD frame,
the ACMD41 frame (with the host-capacity-support bit), and the fixed
20 ms delay. -/
def pollBlock : List Ev :=
  cmdTrace 55 0 ++ cmdTrace 41 (1 <<< 30) ++ [Ev.delay 20]

/-- The ACMD41 polling loop of SD_Init: each iteration issues APP_CMD
then ACMD41 with the HCS bit, delays 20 ms, and exits as soon as the
ACMD41 status is 0.  The first argument is the number of remaining
iterations (10 at loop entry); running out corresponds to the
permanent halt in the source.  On success the returned number counts
the iterations performed. -/
def pollLoop : Nat → SpiState → Option (Nat × SpiState)
  | 0, _ => none
  | f + 1, s =>
    let s1 := (SD_SendCommand 55 0 s).2
    let p := SD_SendCommand 41 (1 <<< 30) s1
    let s2 := TIMER_Delay 20 p.2
    if p.1 = 0 then some (1, s2)
    else
      match pollLoop f s2 with
      | none => none
      | some (n, s3) => some (n + 1, s3)

theorem pollLoop_success (f : Nat) (s : SpiState) (N : Nat)
    (h1 : 1 ≤ N) (hf : N ≤ f)
    (hne : ∀ i, i < N - 1 → s.replies (s.idx + 16 * i + 15) ≠ 0)
    (hz : s.replies (s.idx + 16 * (N - 1) + 15) = 0) :
    pollLoop f s =
      some (N, ⟨s.trace ++ (List.replicate N pollBlock).flatten, s.replies,
        s.idx + 16 * N⟩) := by
  induction f generalizing s N with
  | zero => omega
  | succ k ih =>
      rw [pollLoop]
      simp only [SD_SendCommand_state, SD_SendCommand_ret, TIMER_Delay]
      by_cases hN1 : N = 1
      · subst hN1
        rw [show s.idx + 16 * (1 - 1) + 15 = s.idx + 8 + 7 by omega] at hz
        rw [if_pos hz]
        refine congrArg _ (congrArg₂ Prod.mk rfl ?_)
        refine SpiState.mk_eq ?_ (by omega)
        simp [pollBlock, List.append_assoc]
      · have hN2 : 2 ≤ N := by omega
        have hne0 : ¬ s.replies (s.idx + 8 + 7) = 0 := by
          have h0 := hne 0 (by omega)
          rw [show s.idx + 16 * 0 + 15 = s.idx + 8 + 7 by omega] at h0
          exact h0
        rw [if_neg hne0]
        have ihres := ih
          ⟨s.trace ++ cmdTrace 55 0 ++ cmdTrace 41 (1 <<< 30) ++ [Ev.delay 20],
           s.replies, s.idx + 8 + 8⟩ (N - 1) (by omega) (by omega)
          (by
            intro i hi
            show s.replies (s.idx + 8 + 8 + 16 * i + 15) ≠ 0
            have h0 := hne (i + 1) (by omega)
            rw [show s.idx + 8 + 8 + 16 * i + 15 =
              s.idx + 16 * (i + 1) + 15 by omega]
            exact h0)
          (by
            show s.replies (s.idx + 8 + 8 + 16 * (N - 1 - 1) + 15) = 0
            rw [show s.idx + 8 + 8 + 16 * (N - 1 - 1) + 15 =
              s.idx + 16 * (N - 1) + 15 by omega]
            exact hz)
        rw [ihres]
        refine congrArg _ (congrArg₂ Prod.mk (by omega) ?_)
        refine SpiState.mk_eq ?_
          (by show s.idx + 8 + 8 + 16 * (N - 1) = s.idx + 16 * N; omega)
        rw [show N = (N - 1) + 1 by omega, List.replicate_succ,
          List.flatten_cons]
        simp [pollBlock, List.append_assoc]

theorem pollLoop_fail (f : Nat) (s : SpiState)
    (hne : ∀ i, i < f → s.replies (s.idx + 16 * i + 15) ≠ 0) :
    pollLoop f s = none := by
  induction f generalizing s with
  | zero => rfl
  | succ k ih =>
      rw [pollLoop]
      simp only [SD_SendCommand_state, SD_SendCommand_ret, TIMER_Delay]
      have hne0 : ¬ s.replies (s.idx + 8 + 7) = 0 := by
        have h0 := hne 0 (by omega)
        rw [show s.idx + 16 * 0 + 15 = s.idx + 8 + 7 by omega] at h0
        exact h0
      rw [if_neg hne0]
      rw [ih]
      intro i hi
      show s.replies (s.idx + 8 + 8 + 16 * i + 15) ≠ 0
      have h0 := hne (i + 1) (by omega)
      rw [show s.idx + 8 + 8 + 16 * i + 15 = s.idx + 16 * (i + 1) + 15 by
        omega]
      exact h0

/-- SD_Init from sdcard.c, after the prelude: run the ACMD41 polling
loop with bound 10; on exhaustion the code enters `while(1)` and never
returns, modelled as `none`.  On success, issue READ_OCR once more,
read the 4-byte OCR, set isSDHC to 1 exactly when bit 6 (mask 0x40) of
the first OCR byte is set, deselect the card and return.  The result
carries the number of polling iterations performed, the isSDHC value
and the final link state. -/
def SD_Init (replies : Nat → Nat) : Option (Nat × Nat × SpiState) :=
  match pollLoop 10 (SD_InitPre replies) with
  | none => none
  | some (n, s) =>
    let p := SD_SendCommand 58 0 s
    let q := SD_GetResponseR3orR7 p.2
    let isSDHC := if (q.1.getD 0 0) &&& 0x40 ≠ 0 then 1 else 0
    some (n, isSDHC, SPI1_Deselect q.2)

theorem SD_Init_success (replies : Nat → Nat) (N : Nat)
    (h1 : 1 ≤ N) (hN : N ≤ 10)
    (hne : ∀ i, i < N - 1 → replies (52 + 16 * i + 15) ≠ 0)
    (hz : replies (52 + 16 * (N - 1) + 15) = 0) :
    SD_Init replies =
      some (N, (if replies (60 + 16 * N) &&& 0x40 ≠ 0 then 1 else 0),
        ⟨preTrace ++ (List.replicate N pollBlock).flatten ++ cmdTrace 58 0 ++
          List.replicate 4 (Ev.xfer 0xff) ++ [Ev.deselect],
         replies, 64 + 16 * N⟩) := by
  unfold SD_Init
  rw [SD_InitPre_spec]
  rw [pollLoop_success 10 ⟨preTrace, replies, 52⟩ N h1 hN hne hz]
  simp only [SD_SendCommand_state, SD_GetResponseR3orR7_spec, SPI1_Deselect,
    List.getD_cons_zero]
  refine congrArg _ (congrArg₂ Prod.mk rfl (congrArg₂ Prod.mk ?_ ?_))
  · rw [show 52 + 16 * N + 8 = 60 + 16 * N by omega]
  · refine SpiState.mk_eq ?_
      (by show 52 + 16 * N + 8 + 4 = 64 + 16 * N; omega)
    simp [List.append_assoc]

theorem pollLoop_trace : ∀ (f : Nat) (s : SpiState) (n : Nat) (s2 : SpiState),
    pollLoop f s = some (n, s2) → ∃ t, s2.trace = s.trace ++ t := by
  intro f
  induction f with
  | zero => intro s n s2 h; exact absurd h (by simp [pollLoop])
  | succ k ih =>
      intro s n s2 h
      rw [pollLoop] at h
      simp only [SD_SendCommand_state, SD_SendCommand_ret, TIMER_Delay] at h
      by_cases hc : s.replies (s.idx + 8 + 7) = 0
      · rw [if_pos hc] at h
        simp only [Option.some.injEq, Prod.mk.injEq] at h
        refine ⟨cmdTrace 55 0 ++ cmdTrace 41 (1 <<< 30) ++ [Ev.delay 20], ?_⟩
        rw [← h.2]
        simp [List.append_assoc]
      · rw [if_neg hc] at h
        cases hp : pollLoop k
            ⟨s.trace ++ cmdTrace 55 0 ++ cmdTrace 41 (1 <<< 30) ++
              [Ev.delay 20], s.replies, s.idx + 8 + 8⟩ with
        | none => rw [hp] at h; exact absurd h (by simp)
        | some ns =>
            rw [hp] at h
            obtain ⟨m, s3⟩ := ns
            obtain ⟨t, ht⟩ := ih _ m s3 hp
            simp only [Option.some.injEq, Prod.mk.injEq] at h
            refine ⟨cmdTrace 55 0 ++ cmdTrace 41 (1 <<< 30) ++
              [Ev.delay 20] ++ t, ?_⟩
            rw [← h.2, ht]
            simp [List.append_assoc]

/-- Claim C2: if the simulated card answers the ACMD41 poll (APP_CMD
followed by ACMD41) with status 0x00 for the first time on attempt N
with N ≤ 10 (the status of attempt i being the reply to exchange
52 + 16(i-1) + 15, since 52 exchanges precede the loop and each
iteration performs 16), then SD_Init performs exactly N polling
iterations, proceeds to the capacity read (12 further exchanges, final
exchange count 64 + 16N), sets the capacity flag from the freshly read
OCR, and returns; if the status is non-zero on all 10 attempts,
SD_Init never returns (modelled as none). -/
theorem C2_poll_termination :
    (∀ (replies : Nat → Nat) (N : Nat), 1 ≤ N → N ≤ 10 →
      (∀ i, i < N - 1 → replies (52 + 16 * i + 15) ≠ 0) →
      replies (52 + 16 * (N - 1) + 15) = 0 →
      ∃ g s, SD_Init replies = some (N, g, s) ∧ s.idx = 64 + 16 * N ∧
        g = (if replies (60 + 16 * N) &&& 0x40 ≠ 0 then 1 else 0)) ∧
    (∀ replies : Nat → Nat,
      (∀ i, i < 10 → replies (52 + 16 * i + 15) ≠ 0) →
      SD_Init replies = none) := by
  constructor
  · intro replies N h1 hN hne hz
    refine ⟨_, _, SD_Init_success replies N h1 hN hne hz, rfl, rfl⟩
  · intro replies hne
    unfold SD_Init
    rw [SD_InitPre_spec, pollLoop_fail 10 ⟨preTrace, replies, 52⟩ hne]

theorem C2_poll_termination_witness :
    (∃ g s, SD_Init (fun k => if k = 99 then 0 else 1) = some (3, g, s) ∧
      s.idx = 64 + 16 * 3 ∧
      g = (if (fun k => if k = 99 then 0 else 1) (60 + 16 * 3) &&& 0x40 ≠ 0
           then 1 else 0)) ∧
    SD_Init (fun _ => 1) = none :=
  ⟨C2_poll_termination.1 (fun k => if k = 99 then 0 else 1) 3 (by norm_num)
      (by norm_num) (by decide) (by norm_num),
   C2_poll_termination.2 (fun _ => 1) (by decide)⟩

/-- Claim C5: after the post-polling READ_OCR, SD_Init sets the
capacity flag to 1 (high-capacity) exactly when bit 6 (mask 0x40) of
the first received OCR byte (the reply to exchange 60 + 16N) is set,
and to 0 (standard-capacity) when it is clear. -/
theorem C5_capacity_flag (replies : Nat → Nat) (N : Nat)
    (h1 : 1 ≤ N) (hN : N ≤ 10)
    (hne : ∀ i, i < N - 1 → replies (52 + 16 * i + 15) ≠ 0)
    (hz : replies (52 + 16 * (N - 1) + 15) = 0) :
    ∃ s, SD_Init replies =
      some (N, (if replies (60 + 16 * N) &&& 0x40 ≠ 0 then 1 else 0), s) :=
  ⟨_, SD_Init_success replies N h1 hN hne hz⟩

theorem C5_capacity_flag_witness :
    (∃ s, SD_Init (fun k => if k = 67 then 0 else if k = 76 then 0x40 else 1)
        = some (1, 1, s)) ∧
    (∃ s, SD_Init (fun k => if k = 67 then 0 else if k = 76 then 0 else 1)
        = some (1, 0, s)) := by
  constructor
  · obtain ⟨s, hs⟩ := C5_capacity_flag
      (fun k => if k = 67 then 0 else if k = 76 then 0x40 else 1) 1
      (by norm_num) (by norm_num)
      (by intro i hi; exact absurd hi (Nat.not_lt_zero i)) (by norm_num)
    exact ⟨s, by rw [hs]; norm_num⟩
  · obtain ⟨s, hs⟩ := C5_capacity_flag
      (fun k => if k = 67 then 0 else if k = 76 then 0 else 1) 1
      (by norm_num) (by norm_num)
      (by intro i hi; exact absurd hi (Nat.not_lt_zero i)) (by norm_num)
    exact ⟨s, by rw [hs]; norm_num⟩

/-- Claim C9: at the start of every initialization run, right after
selecting the card and before the first command frame, the driver
transmits exactly 20 filler bytes 0xFF; the prelude trace is exactly
the chip select, the 20 sync bytes, and then the CMD0, CMD8 and CMD58
exchanges, and every completed SD_Init run has the select followed by
the 20 sync bytes at the very start of its trace, before every command
frame of the bring-up sequence. -/
theorem C9_sync_bytes (replies : Nat → Nat) :
    (SD_InitPre replies).trace =
      [Ev.select] ++ List.replicate 20 (Ev.xfer 0xff) ++
        (cmdTrace 0 0 ++ cmdTrace 8 ((1 <<< 8) ||| 0xaa) ++
         List.replicate 4 (Ev.xfer 0xff) ++ cmdTrace 58 0 ++
         List.replicate 4 (Ev.xfer 0xff)) ∧
    ((SD_Init replies).isSome = true →
      ∃ rest, ((SD_Init replies).map fun x => x.2.2.trace).getD [] =
        [Ev.select] ++ List.replicate 20 (Ev.xfer 0xff) ++ rest) := by
  constructor
  · rw [SD_InitPre_spec]
    simp [preTrace]
  · intro hs
    unfold SD_Init at hs ⊢
    cases hp : pollLoop 10 (SD_InitPre replies) with
    | none => rw [hp] at hs; simp at hs
    | some ns =>
        obtain ⟨n0, s0⟩ := ns
        obtain ⟨t, ht⟩ := pollLoop_trace 10 _ n0 s0 hp
        rw [SD_InitPre_spec] at ht
        simp only [SD_SendCommand_state, SD_GetResponseR3orR7_spec,
          SPI1_Deselect, Option.map_some', Option.getD_some]
        refine ⟨(List.replicate 20 (Ev.xfer 0xff) ++ cmdTrace 0 0 ++
          cmdTrace 8 ((1 <<< 8) ||| 0xaa) ++ List.replicate 4 (Ev.xfer 0xff) ++
          cmdTrace 58 0 ++ List.replicate 4 (Ev.xfer 0xff)).drop 20 ++ t ++
          cmdTrace 58 0 ++ List.replicate 4 (Ev.xfer 0xff) ++ [Ev.deselect], ?_⟩
        rw [ht]
        simp [preTrace, List.append_assoc]

/-- The read-path token busy-wait in SD_ReadSectors: exchange filler
bytes until the data token 0xFE is received.  The C loop is unbounded;
fuel bounds the modelled run and `none` stands for not returning
within that budget. -/
def waitToken : Nat → SpiState → Option SpiState
  | 0, _ => none
  | f + 1, s =>
    let p := SPI1_Transmit 0xff s
    if p.1 = 0xfe then some p.2 else waitToken f p.2

/-- The R1b busy-wait at the end of both transfer paths: exchange
filler bytes while the reply is zero. -/
def waitNotBusy : Nat → SpiState → Option SpiState
  | 0, _ => none
  | f + 1, s =>
    let p := SPI1_Transmit 0xff s
    if p.1 = 0 then waitNotBusy f p.2 else some p.2

/-- The per-block read loop of SD_ReadSectors: for each block, wait for
the data token, read 512 payload bytes, exchange the two CRC bytes. -/
def readBlockLoop (fuel : Nat) : Nat → SpiState → Option SpiState
  | 0, s => some s
  | c + 1, s =>
    match waitToken fuel s with
    | none => none
    | some s1 =>
      let s2 := SPI1_ReadBuffer 512 s1
      let s3 := (SPI1_Transmit 0xff s2).2
      let s4 := (SPI1_Transmit 0xff s3).2
      readBlockLoop fuel c s4

/-- SD_ReadSectors from sdcard.c: translate the sector index using the
capacity flag (byte addressing, i.e. multiplication by 512 with uint32
wrap-around, only for standard-capacity cards), select, issue
READ_MULTIPLE_BLOCK (a non-zero status is only logged), run the block
loop, issue STOP_TRANSMISSION, busy-wait, deselect and return 0.  The
isSDHC global is passed in and returned to make the frame condition
explicit. -/
def SD_ReadSectors (isSDHC sector count fuel : Nat) (s : SpiState) :
    Option (Nat × Nat × SpiState) :=
  let sector2 := if isSDHC = 0 then sector * 512 % 2 ^ 32 else sector
  let s1 := SPI1_Select s
  let p := SD_SendCommand 18 sector2 s1
  match readBlockLoop fuel count p.2 with
  | none => none
  | some s2 =>
    let q := SD_SendCommand 12 0 s2
    match waitNotBusy fuel q.2 with
    | none => none
    | some s3 => some (0, isSDHC, SPI1_Deselect s3)

/-- The WRITE_MULTIPLE_BLOCK retry loop of SD_WriteSectors (do/while):
issue the command, delay 5 ms, repeat until the status is zero. -/
def writeRetry (sector : Nat) : Nat → SpiState → Option SpiState
  | 0, _ => none
  | f + 1, s =>
    let p := SD_SendCommand 25 sector s
    let s1 := TIMER_Delay 5 p.2
    if p.1 = 0 then some s1 else writeRetry sector f s1

/-- The per-block write loop of SD_WriteSectors: for each block, send
the data token 0xFC, the 512 payload bytes, and two CRC filler bytes. -/
def writeBlockLoop : Nat → SpiState → SpiState
  | 0, s => s
  | c + 1, s =>
    let s1 := (SPI1_Transmit 0xfc s).2
    let s2 := SPI1_SendBuffer 512 s1
    let s3 := (SPI1_Transmit 0xff s2).2
    let s4 := (SPI1_Transmit 0xff s3).2
    writeBlockLoop c s4

/-- SD_WriteSectors from sdcard.c: always multiply the sector index by
512 (uint32 wrap, the capacity flag is not consulted), select, retry
WRITE_MULTIPLE_BLOCK until a zero status, send one filler byte, run the
block loop, send the stop token 0xFD and a filler, busy-wait, deselect
and return 0.  As in the read path, the isSDHC global is threaded
through unchanged. -/
def SD_WriteSectors (isSDHC sector count fuel : Nat) (s : SpiState) :
    Option (Nat × Nat × SpiState) :=
  let sector2 := sector * 512 % 2 ^ 32
  let s1 := SPI1_Select s
  match writeRetry sector2 fuel s1 with
  | none => none
  | some s2 =>
    let s3 := (SPI1_Transmit 0xff s2).2
    let s4 := writeBlockLoop count s3
    let s5 := (SPI1_Transmit 0xfd s4).2
    let s6 := (SPI1_Transmit 0xff s5).2
    match waitNotBusy fuel s6 with
    | none => none
    | some s7 => some (0, isSDHC, SPI1_Deselect s7)

theorem waitToken_trace : ∀ (f : Nat) (s s2 : SpiState),
    waitToken f s = some s2 → ∃ t, s2.trace = s.trace ++ t := by
  intro f
  induction f with
  | zero => intro s s2 h; exact absurd h (by simp [waitToken])
  | succ k ih =>
      intro s s2 h
      rw [waitToken] at h
      simp only [SPI1_Transmit] at h
      by_cases hc : s.replies s.idx = 0xfe
      · rw [if_pos hc] at h
        simp only [Option.some.injEq] at h
        exact ⟨[Ev.xfer 0xff], by rw [← h]⟩
      · rw [if_neg hc] at h
        obtain ⟨t, ht⟩ := ih _ _ h
        exact ⟨Ev.xfer 0xff :: t, by rw [ht]; simp⟩

theorem waitNotBusy_trace : ∀ (f : Nat) (s s2 : SpiState),
    waitNotBusy f s = some s2 → ∃ t, s2.trace = s.trace ++ t := by
  intro f
  induction f with
  | zero => intro s s2 h; exact absurd h (by simp [waitNotBusy])
  | succ k ih =>
      intro s s2 h
      rw [waitNotBusy] at h
      simp only [SPI1_Transmit] at h
      by_cases hc : s.replies s.idx = 0
      · rw [if_pos hc] at h
        obtain ⟨t, ht⟩ := ih _ _ h
        exact ⟨Ev.xfer 0xff :: t, by rw [ht]; simp⟩
      · rw [if_neg hc] at h
        simp only [Option.some.injEq] at h
        exact ⟨[Ev.xfer 0xff], by rw [← h]⟩

theorem readBlockLoop_trace : ∀ (c : Nat) (fuel : Nat) (s s2 : SpiState),
    readBlockLoop fuel c s = some s2 → ∃ t, s2.trace = s.trace ++ t := by
  intro c
  induction c with
  | zero =>
      intro fuel s s2 h
      simp only [readBlockLoop, Option.some.injEq] at h
      exact ⟨[], by rw [← h]; simp⟩
  | succ k ih =>
      intro fuel s s2 h
      rw [readBlockLoop] at h
      cases hw : waitToken fuel s with
      | none => rw [hw] at h; exact absurd h (by simp)
      | some s1 =>
          rw [hw] at h
          simp only [SPI1_ReadBuffer, SPI1_Transmit] at h
          obtain ⟨t1, ht1⟩ := waitToken_trace fuel s s1 hw
          obtain ⟨t2, ht2⟩ := ih fuel _ _ h
          refine ⟨t1 ++ [Ev.readBlock 512, Ev.xfer 0xff, Ev.xfer 0xff] ++ t2, ?_⟩
          rw [ht2]
          simp only [ht1]
          simp [List.append_assoc]

/-- Claim C8: whenever SD_ReadSectors or SD_WriteSectors returns at all,
the returned value is the fixed success code 0, for every capacity
flag, sector, count, fuel and link state; a non-zero protocol status
during the transfer is only logged and never changes the return
value. -/
theorem C8_returns_zero (g sector count fuel : Nat) (s : SpiState) :
    ((SD_ReadSectors g sector count fuel s).isSome = true →
      (SD_ReadSectors g sector count fuel s).map (fun x => x.1) = some 0) ∧
    ((SD_WriteSectors g sector count fuel s).isSome = true →
      (SD_WriteSectors g sector count fuel s).map (fun x => x.1) = some 0) := by
  constructor
  · intro h
    simp only [SD_ReadSectors] at h ⊢
    split at h
    · simp at h
    · split at h
      · simp at h
      · simp_all
  · intro h
    simp only [SD_WriteSectors] at h ⊢
    split at h
    · simp at h
    · split at h
      · simp at h
      · simp_all

theorem C8_returns_zero_witness :
    (SD_ReadSectors 1 5 1 1
        ⟨[], fun k => if k = 8 then 0xfe else if k = 531 then 1 else 0, 0⟩).map
      (fun x => x.1) = some 0 ∧
    (SD_WriteSectors 0 3 1 3
        ⟨[], fun k => if k = 23 then 0 else 1, 0⟩).map
      (fun x => x.1) = some 0 :=
  ⟨(C8_returns_zero 1 5 1 1
      ⟨[], fun k => if k = 8 then 0xfe else if k = 531 then 1 else 0, 0⟩).1
        (by decide),
   (C8_returns_zero 0 3 1 3 ⟨[], fun k => if k = 23 then 0 else 1, 0⟩).2
        (by decide)⟩

/-- Claim C10: the capacity flag is written only by initialization;
SD_ReadSectors and SD_WriteSectors return it exactly as it was passed
in, for all arguments and link states. -/
theorem C10_flag_frame (g sector count fuel : Nat) (s : SpiState) :
    ((SD_ReadSectors g sector count fuel s).isSome = true →
      (SD_ReadSectors g sector count fuel s).map (fun x => x.2.1) = some g) ∧
    ((SD_WriteSectors g sector count fuel s).isSome = true →
      (SD_WriteSectors g sector count fuel s).map (fun x => x.2.1) = some g) := by
  constructor
  · intro h
    simp only [SD_ReadSectors] at h ⊢
    split at h
    · simp at h
    · split at h
      · simp at h
      · simp_all
  · intro h
    simp only [SD_WriteSectors] at h ⊢
    split at h
    · simp at h
    · split at h
      · simp at h
      · simp_all

theorem C10_flag_frame_witness :
    (SD_ReadSectors 7 6 1 1
        ⟨[], fun k => if k = 8 then 0xfe else if k = 531 then 1 else 0, 0⟩).map
      (fun x => x.2.1) = some 7 ∧
    (SD_WriteSectors 9 4 1 3
        ⟨[], fun k => if k = 23 then 0 else 1, 0⟩).map
      (fun x => x.2.1) = some 9 :=
  ⟨(C10_flag_frame 7 6 1 1
      ⟨[], fun k => if k = 8 then 0xfe else if k = 531 then 1 else 0, 0⟩).1
        (by decide),
   (C10_flag_frame 9 4 1 3 ⟨[], fun k => if k = 23 then 0 else 1, 0⟩).2
        (by decide)⟩

/-- Claim C3: SD_ReadSectors translates the sector index to the
protocol address by consulting the stored capacity flag: it issues
READ_MULTIPLE_BLOCK with address sector * 512 (with uint32 wrap) when
the flag says standard-capacity (0), and with the sector index
unchanged when the flag says high-capacity (non-zero); the very first
events on the link are the chip select followed by that command
frame. -/
theorem C3_read_translation (g sector count fuel : Nat) (s : SpiState)
    (h : (SD_ReadSectors g sector count fuel s).isSome = true) :
    ∃ rest, ((SD_ReadSectors g sector count fuel s).map
        fun x => x.2.2.trace).getD [] =
      s.trace ++ Ev.select ::
        (cmdTrace 18 (if g = 0 then sector * 512 % 2 ^ 32 else sector) ++
         rest) := by
  simp only [SD_ReadSectors] at h ⊢
  split at h
  next heq => simp at h
  next s2 heq =>
    split at h
    next heq2 => simp at h
    next s3 heq2 =>
      obtain ⟨t1, ht1⟩ := readBlockLoop_trace count fuel _ s2 heq
      obtain ⟨t2, ht2⟩ := waitNotBusy_trace fuel _ s3 heq2
      rw [SD_SendCommand_state] at ht1 ht2
      refine ⟨t1 ++ cmdTrace 12 0 ++ t2 ++ [Ev.deselect], ?_⟩
      simp only [Option.map_some', Option.getD_some, SPI1_Deselect]
      rw [ht2, ht1]
      simp [SPI1_Select, List.append_assoc]

theorem C3_read_translation_witness :
    (∃ rest, ((SD_ReadSectors 1 5 1 1
          ⟨[], fun k => if k = 8 then 0xfe else if k = 531 then 1 else 0,
           0⟩).map fun x => x.2.2.trace).getD [] =
        [] ++ Ev.select ::
          (cmdTrace 18 (if (1 : Nat) = 0 then 5 * 512 % 2 ^ 32 else 5) ++
           rest)) ∧
    (∃ rest, ((SD_ReadSectors 0 5 1 1
          ⟨[], fun k => if k = 8 then 0xfe else if k = 531 then 1 else 0,
           0⟩).map fun x => x.2.2.trace).getD [] =
        [] ++ Ev.select ::
          (cmdTrace 18 (if (0 : Nat) = 0 then 5 * 512 % 2 ^ 32 else 5) ++
           rest)) :=
  ⟨C3_read_translation 1 5 1 1
      ⟨[], fun k => if k = 8 then 0xfe else if k = 531 then 1 else 0, 0⟩
      (by decide),
   C3_read_translation 0 5 1 1
      ⟨[], fun k => if k = 8 then 0xfe else if k = 531 then 1 else 0, 0⟩
      (by decide)⟩

theorem writeRetry_success (sector : Nat) : ∀ (f : Nat) (s : SpiState) (N : Nat),
    1 ≤ N → N ≤ f →
    (∀ i, i < N - 1 → s.replies (s.idx + 8 * i + 7) ≠ 0) →
    s.replies (s.idx + 8 * (N - 1) + 7) = 0 →
    writeRetry sector f s =
      some ⟨s.trace ++
        (List.replicate N (cmdTrace 25 sector ++ [Ev.delay 5])).flatten,
        s.replies, s.idx + 8 * N⟩ := by
  intro f
  induction f with
  | zero => intro s N h1 hf; omega
  | succ k ih =>
      intro s N h1 hf hne hz
      rw [writeRetry]
      simp only [SD_SendCommand_state, SD_SendCommand_ret, TIMER_Delay]
      by_cases hN1 : N = 1
      · subst hN1
        rw [show s.idx + 8 * (1 - 1) + 7 = s.idx + 7 by omega] at hz
        rw [if_pos hz]
        refine congrArg _ (SpiState.mk_eq ?_ (by omega))
        simp [List.append_assoc]
      · have hne0 : ¬ s.replies (s.idx + 7) = 0 := by
          have h0 := hne 0 (by omega)
          rw [show s.idx + 8 * 0 + 7 = s.idx + 7 by omega] at h0
          exact h0
        rw [if_neg hne0]
        have ihres := ih
          ⟨s.trace ++ cmdTrace 25 sector ++ [Ev.delay 5], s.replies,
           s.idx + 8⟩ (N - 1) (by omega) (by omega)
          (by
            intro i hi
            show s.replies (s.idx + 8 + 8 * i + 7) ≠ 0
            have h0 := hne (i + 1) (by omega)
            rw [show s.idx + 8 + 8 * i + 7 = s.idx + 8 * (i + 1) + 7 by omega]
            exact h0)
          (by
            show s.replies (s.idx + 8 + 8 * (N - 1 - 1) + 7) = 0
            rw [show s.idx + 8 + 8 * (N - 1 - 1) + 7 =
              s.idx + 8 * (N - 1) + 7 by omega]
            exact hz)
        rw [ihres]
        refine congrArg _ (SpiState.mk_eq ?_
          (by show s.idx + 8 + 8 * (N - 1) = s.idx + 8 * N; omega))
        rw [show N = (N - 1) + 1 by omega, List.replicate_succ,
          List.flatten_cons]
        simp [List.append_assoc]

theorem writeRetry_fail (sector : Nat) : ∀ (f : Nat) (s : SpiState),
    (∀ i, i < f → s.replies (s.idx + 8 * i + 7) ≠ 0) →
    writeRetry sector f s = none := by
  intro f
  induction f with
  | zero => intro s hne; rfl
  | succ k ih =>
      intro s hne
      rw [writeRetry]
      simp only [SD_SendCommand_state, SD_SendCommand_ret, TIMER_Delay]
      have hne0 : ¬ s.replies (s.idx + 7) = 0 := by
        have h0 := hne 0 (by omega)
        rw [show s.idx + 8 * 0 + 7 = s.idx + 7 by omega] at h0
        exact h0
      rw [if_neg hne0]
      rw [ih]
      intro i hi
      show s.replies (s.idx + 8 + 8 * i + 7) ≠ 0
      have h0 := hne (i + 1) (by omega)
      rw [show s.idx + 8 + 8 * i + 7 = s.idx + 8 * (i + 1) + 7 by omega]
      exact h0

theorem writeRetry_first_frame (sector : Nat) : ∀ (f : Nat) (s s2 : SpiState),
    writeRetry sector f s = some s2 →
    ∃ t, s2.trace = s.trace ++ cmdTrace 25 sector ++ t := by
  intro f
  induction f with
  | zero => intro s s2 h; exact absurd h (by simp [writeRetry])
  | succ k ih =>
      intro s s2 h
      rw [writeRetry] at h
      simp only [SD_SendCommand_state, SD_SendCommand_ret, TIMER_Delay] at h
      by_cases hc : s.replies (s.idx + 7) = 0
      · rw [if_pos hc] at h
        simp only [Option.some.injEq] at h
        refine ⟨[Ev.delay 5], ?_⟩
        rw [← h]
      · rw [if_neg hc] at h
        obtain ⟨t, ht⟩ := ih _ _ h
        refine ⟨[Ev.delay 5] ++ cmdTrace 25 sector ++ t, ?_⟩
        rw [ht]
        simp [List.append_assoc]

theorem writeBlockLoop_spec : ∀ (c : Nat) (s : SpiState),
    writeBlockLoop c s =
      ⟨s.trace ++ (List.replicate c [Ev.xfer 0xfc, Ev.writeBlock 512,
        Ev.xfer 0xff, Ev.xfer 0xff]).flatten, s.replies, s.idx + 515 * c⟩ := by
  intro c
  induction c with
  | zero => intro s; simp [writeBlockLoop]
  | succ k ih =>
      intro s
      rw [writeBlockLoop]
      simp only [SPI1_Transmit, SPI1_SendBuffer]
      rw [ih]
      refine SpiState.mk_eq ?_
        (by show s.idx + 1 + 512 + 1 + 1 + 515 * k = s.idx + 515 * (k + 1); omega)
      rw [List.replicate_succ, List.flatten_cons]
      simp [List.append_assoc]

/-- Claim C4: SD_WriteSectors always issues WRITE_MULTIPLE_BLOCK with
the byte-granular address sector * 512 (uint32 wrap), for every value
of the capacity flag; the flag is never consulted on the write path:
the run with flag g is the run with flag 0 except that the threaded
flag value passes through unchanged. -/
theorem C4_write_address (g sector count fuel : Nat) (s : SpiState) :
    ((SD_WriteSectors g sector count fuel s).isSome = true →
      ∃ rest, ((SD_WriteSectors g sector count fuel s).map
          fun x => x.2.2.trace).getD [] =
        s.trace ++ Ev.select ::
          (cmdTrace 25 (sector * 512 % 2 ^ 32) ++ rest)) ∧
    SD_WriteSectors g sector count fuel s =
      (SD_WriteSectors 0 sector count fuel s).map
        fun x => (x.1, g, x.2.2) := by
  constructor
  · intro h
    simp only [SD_WriteSectors] at h ⊢
    split at h
    next heq => simp at h
    next s2 heq =>
      split at h
      next heq2 => simp at h
      next s7 heq2 =>
        obtain ⟨t1, ht1⟩ := writeRetry_first_frame (sector * 512 % 2 ^ 32)
          fuel _ s2 heq
        obtain ⟨t2, ht2⟩ := waitNotBusy_trace fuel _ s7 heq2
        simp only [SPI1_Transmit, writeBlockLoop_spec] at ht2
        refine ⟨t1 ++ Ev.xfer 0xff ::
          ((List.replicate count [Ev.xfer 0xfc, Ev.writeBlock 512,
            Ev.xfer 0xff, Ev.xfer 0xff]).flatten ++ Ev.xfer 0xfd ::
           Ev.xfer 0xff :: (t2 ++ [Ev.deselect])), ?_⟩
        simp only [Option.map_some', Option.getD_some, SPI1_Deselect]
        rw [ht2, ht1]
        simp [SPI1_Select, List.append_assoc]
  · simp only [SD_WriteSectors]
    cases hr : writeRetry (sector * 512 % 2 ^ 32) fuel (SPI1_Select s) with
    | none => simp
    | some s2 =>
        cases hb : waitNotBusy fuel
            (SPI1_Transmit 0xff
              (SPI1_Transmit 0xfd
                (writeBlockLoop count (SPI1_Transmit 0xff s2).2)).2).2 with
        | none => simp [hb]
        | some s7 => simp [hb]

theorem C4_write_address_witness :
    (∃ rest, ((SD_WriteSectors 5 3 0 1
          ⟨[], fun k => if k = 11 then 1 else 0, 0⟩).map
          fun x => x.2.2.trace).getD [] =
        [] ++ Ev.select :: (cmdTrace 25 (3 * 512 % 2 ^ 32) ++ rest)) ∧
    SD_WriteSectors 5 3 0 1 ⟨[], fun k => if k = 11 then 1 else 0, 0⟩ =
      (SD_WriteSectors 0 3 0 1
          ⟨[], fun k => if k = 11 then 1 else 0, 0⟩).map
        fun x => (x.1, 5, x.2.2) :=
  ⟨(C4_write_address 5 3 0 1 ⟨[], fun k => if k = 11 then 1 else 0, 0⟩).1
      (by decide),
   (C4_write_address 5 3 0 1 ⟨[], fun k => if k = 11 then 1 else 0, 0⟩).2⟩

/-- Claim C7: the WRITE_MULTIPLE_BLOCK retry loop of SD_WriteSectors
repeats until a zero status with the fixed 5 ms delay after each
attempt and has no maximum attempt count: for every N, if the command
status is non-zero on the first N-1 attempts and zero on the Nth, the
loop performs exactly N attempts (given at least N units of fuel), and
if the status never becomes zero it never exits (none for every fuel).
In the full SD_WriteSectors run with a first zero status on attempt 3,
exactly 3 command frames, each followed by the delay, appear after the
chip select and before the single filler byte and the first per-block
payload token 0xFC. -/
theorem C7_write_retry :
    (∀ (sector f : Nat) (s : SpiState) (N : Nat),
      1 ≤ N → N ≤ f →
      (∀ i, i < N - 1 → s.replies (s.idx + 8 * i + 7) ≠ 0) →
      s.replies (s.idx + 8 * (N - 1) + 7) = 0 →
      writeRetry sector f s =
        some ⟨s.trace ++
          (List.replicate N (cmdTrace 25 sector ++ [Ev.delay 5])).flatten,
          s.replies, s.idx + 8 * N⟩) ∧
    (∀ (sector f : Nat) (s : SpiState),
      (∀ i, i < f → s.replies (s.idx + 8 * i + 7) ≠ 0) →
      writeRetry sector f s = none) ∧
    (∀ (g sector count fuel : Nat) (s : SpiState) (N : Nat),
      1 ≤ N → N ≤ fuel → 1 ≤ count →
      (∀ i, i < N - 1 → s.replies (s.idx + 8 * i + 7) ≠ 0) →
      s.replies (s.idx + 8 * (N - 1) + 7) = 0 →
      (SD_WriteSectors g sector count fuel s).isSome = true →
      ∃ rest, ((SD_WriteSectors g sector count fuel s).map
          fun x => x.2.2.trace).getD [] =
        s.trace ++ Ev.select ::
          ((List.replicate N (cmdTrace 25 (sector * 512 % 2 ^ 32) ++
            [Ev.delay 5])).flatten ++ Ev.xfer 0xff :: Ev.xfer 0xfc :: rest)) := by
  refine ⟨fun sector f s N h1 hf hne hz =>
    writeRetry_success sector f s N h1 hf hne hz,
    fun sector f s hne => writeRetry_fail sector f s hne, ?_⟩
  intro g sector count fuel s N h1 hN hc hne hz h
  obtain ⟨c, rfl⟩ : ∃ c, count = c + 1 := ⟨count - 1, by omega⟩
  have hr := writeRetry_success (sector * 512 % 2 ^ 32) fuel (SPI1_Select s)
    N h1 hN hne hz
  simp only [SD_WriteSectors] at h ⊢
  simp only [hr] at h ⊢
  split at h
  next heq2 => simp at h
  next s7 heq2 =>
    obtain ⟨t2, ht2⟩ := waitNotBusy_trace fuel _ s7 heq2
    simp only [SPI1_Transmit, writeBlockLoop_spec, SPI1_Select] at ht2
    refine ⟨Ev.writeBlock 512 :: Ev.xfer 0xff :: Ev.xfer 0xff ::
      ((List.replicate c [Ev.xfer 0xfc, Ev.writeBlock 512, Ev.xfer 0xff,
        Ev.xfer 0xff]).flatten ++ Ev.xfer 0xfd :: Ev.xfer 0xff ::
       (t2 ++ [Ev.deselect])), ?_⟩
    simp only [Option.map_some', Option.getD_some, SPI1_Deselect]
    rw [ht2]
    simp [SPI1_Select, List.replicate_succ, List.flatten_cons,
      List.append_assoc]

theorem C7_write_retry_witness :
    (writeRetry 7 1 ⟨[], fun _ => 0, 0⟩ =
      some ⟨[] ++ (List.replicate 1 (cmdTrace 25 7 ++ [Ev.delay 5])).flatten,
        fun _ => 0, 0 + 8 * 1⟩) ∧
    writeRetry 7 2 ⟨[], fun _ => 1, 0⟩ = none ∧
    (∃ rest, ((SD_WriteSectors 0 2 1 3
        ⟨[], fun k => if k = 23 then 0 else 1, 0⟩).map
        fun x => x.2.2.trace).getD [] =
      [] ++ Ev.select ::
        ((List.replicate 3 (cmdTrace 25 (2 * 512 % 2 ^ 32) ++
          [Ev.delay 5])).flatten ++ Ev.xfer 0xff :: Ev.xfer 0xfc :: rest)) :=
  ⟨C7_write_retry.1 7 1 ⟨[], fun _ => 0, 0⟩ 1 (by norm_num) (by norm_num)
      (by intro i hi; exact absurd hi (Nat.not_lt_zero i)) (by rfl),
   C7_write_retry.2.1 7 2 ⟨[], fun _ => 1, 0⟩ (by decide),
   C7_write_retry.2.2 0 2 1 3 ⟨[], fun k => if k = 23 then 0 else 1, 0⟩ 3
      (by norm_num) (by norm_num) (by norm_num) (by decide) (by rfl)
      (by decide)⟩

theorem C9_sync_bytes_witness :
    ∃ rest, ((SD_Init (fun k => if k = 67 then 0 else 1)).map
        fun x => x.2.2.trace).getD [] =
      [Ev.select] ++ List.replicate 20 (Ev.xfer 0xff) ++ rest :=
  (C9_sync_bytes (fun k => if k = 67 then 0 else 1)).2 (by decide)
